import Mathlib

/-!
Shallow embedding of `lsst/pipe/tasks/imageDifference.py` and the
photometric-calibration section of `lsst/pipe/tasks/calibrate.py`.

Conventions of the embedding:
* Python exceptions become `Except PyError`; a reference to a Python name
  that was never bound in the enclosing scope is modelled as
  `PyError.nameError`, an attribute lookup that fails as
  `PyError.attributeError` (standard CPython semantics).
* The butler/data-repository is modelled as predicates telling which
  datasets exist; `get` of an existing dataset yields an abstract value.
* External engine calls (warping, kernel fitting, detection, measurement,
  astrometry) are collaborators outside this repository; they are modelled
  as succeeding, since the claims under study are about the control flow of this
  repository itself around them.
* PSF widths are real numbers; mask pixels are 16-bit unsigned integers
  modelled as `Nat` below `2 ^ 16`.
-/

namespace PipeTasks

/-- Python exception kinds raised by the modelled code paths. -/
inductive PyError
  | nameError (nm : String)
  | attributeError (nm : String)
  | runtimeError (msg : String)
  | taskError (msg : String)
  | assertionError (msg : String)
deriving DecidableEq, Repr

/-- Index of a patch inside a tract (`patchInfo.getIndex()`), a pair of
non-negative integers. -/
structure PatchId where
  px : Nat
  py : Nat
deriving DecidableEq, Repr

/-- The per-tract slice of the butler consulted by
`ImageDifferenceTask.getTemplate`: which per-patch datasets
(`<coaddName>Coadd`, `<coaddName>Coadd_psf`, `<coaddName>Coadd_apCorr`)
exist, and the abstract value returned when one is fetched. -/
structure TileStore where
  coaddExists : PatchId → Bool
  psfExists : PatchId → Bool
  psfVal : PatchId → Nat
  apCorrExists : PatchId → Bool
  apCorrVal : PatchId → Nat

/-- Mutable loop state of the patch loop in `getTemplate`
(lines 511-513: `nPatchesFound = 0`, `coaddPsf = None`,
`coaddApCorr = None`). -/
structure TemplateLoopState where
  nPatchesFound : Nat
  coaddPsf : Option Nat
  coaddApCorr : Option Nat
deriving DecidableEq, Repr

/-- Lines 547-559: retrieve the aperture correction for this coadd tract,
if not already retrieved; a missing dataset is only logged.  (The
`continue` there is the last statement of the loop body, so it is
equivalent to falling through.) -/
def fetchApCorr (store : TileStore) (s : TemplateLoopState) (p : PatchId) :
    TemplateLoopState :=
  if s.coaddApCorr.isNone then
    if store.apCorrExists p then { s with coaddApCorr := some (store.apCorrVal p) }
    else s
  else s

/-- One iteration of the patch loop of `getTemplate` (lines 514-559):
skip the patch when its `Coadd` dataset does not exist; otherwise count it
and copy its pixels; then, when no PSF has been retrieved yet, try this
`Coadd_psf` dataset of that patch — if that dataset is absent the iteration
issues `continue`, which also skips the aperture-correction block. -/
def processPatch (store : TileStore) (s : TemplateLoopState) (p : PatchId) :
    TemplateLoopState :=
  if store.coaddExists p then
    let s1 : TemplateLoopState := { s with nPatchesFound := s.nPatchesFound + 1 }
    if s1.coaddPsf.isNone then
      if store.psfExists p then
        fetchApCorr store { s1 with coaddPsf := some (store.psfVal p) } p
      else s1
    else fetchApCorr store s1 p
  else s

/-- The full patch loop of `getTemplate`, starting from the initial state
of lines 511-513. -/
def templateLoop (store : TileStore) (patchList : List PatchId) :
    TemplateLoopState :=
  patchList.foldl (processPatch store) ⟨0, none, none⟩

/-- Successful result of `getTemplate`: the stitched coadd exposure is
abstracted to the count of patches read, the PSF installed on it
(line 567), and the possibly absent aperture correction returned alongside
it (line 568). -/
structure TemplateResult where
  nPatchesFound : Nat
  coaddPsf : Nat
  coaddApCorr : Option Nat
deriving DecidableEq, Repr

/-- `ImageDifferenceTask.getTemplate` (lines 478-568), with the sky-map
lookup abstracted into the given `patchList`.  Line 496 raises when the
patch list is empty; after the loop, line 561 raises when no patch was
read and line 564 raises when no PSF model was ever retrieved; otherwise
the stitched exposure and the (possibly `None`) aperture correction are
returned. -/
def getTemplate (store : TileStore) (patchList : List PatchId) :
    Except PyError TemplateResult :=
  if patchList.isEmpty then .error (.runtimeError "No suitable tract found")
  else if (templateLoop store patchList).nPatchesFound = 0 then
    .error (.runtimeError "No patches found!")
  else
    match (templateLoop store patchList).coaddPsf with
    | none => .error (.runtimeError "No coadd Psf found!")
    | some psf =>
        .ok ⟨(templateLoop store patchList).nPatchesFound, psf,
             (templateLoop store patchList).coaddApCorr⟩

/-- Config for `ImageDifferenceTask` (class `ImageDifferenceConfig`,
lines 42-141), restricted to the fields the modelled control flow reads;
the defaults are those of the `pexConfig.Field` declarations. -/
structure ImageDifferenceConfig where
  doAddCalexpBackground : Bool := true
  doSelectSources : Bool := true
  doSubtract : Bool := true
  doPreConvolve : Bool := true
  useGaussianForPreConvolution : Bool := true
  doDetection : Bool := true
  doMerge : Bool := true
  doMatchSources : Bool := true
  doMeasurement : Bool := true
  doWriteSubtractedExp : Bool := true
  doWriteMatchedExp : Bool := false
  doWriteSources : Bool := true
  doWriteHeavyFootprintsInSources : Bool := false
  convolveTemplate : Bool := true
  growFootprint : Nat := 2
deriving DecidableEq, Repr

/-- `ImageDifferenceConfig.validate` (lines 133-141): the three invalid
option combinations each raise a `ValueError` before any stage runs. -/
def ImageDifferenceConfig.validate (cfg : ImageDifferenceConfig) :
    Except String Unit :=
  if cfg.doMeasurement ∧ ¬ cfg.doDetection then
    .error "Cannot run source measurement without source detection."
  else if cfg.doMerge ∧ ¬ cfg.doDetection then
    .error "Cannot run source merging without source detection."
  else if cfg.doWriteHeavyFootprintsInSources ∧ ¬ cfg.doWriteSources then
    .error "Cannot write HeavyFootprints (doWriteHeavyFootprintsInSources) without doWriteSources"
  else .ok ()

/-- Outcome of the source-selection block when it does not raise. -/
inductive SelectOutcome
  | skipped
  | usedSrcProduct
deriving DecidableEq, Repr

/-- Lines 251-268: optional pre-convolution of the science exposure.
Returns whether a convolution was performed.  In the
`useGaussianForPreConvolution` branch (lines 257-260) a single-Gaussian
PSF of width `scienceSigmaOrig` is built and the convolution proceeds; in
the `else` branch (lines 261-263) the code reads `preConvPsf = psf`, but
no local named `psf` is ever assigned anywhere in `run` (the science PSF
is bound as `sciencePsf` on line 231), so CPython raises `NameError`
before `afwMath.convolve` on line 264 is reached. -/
def preConvolveStep (cfg : ImageDifferenceConfig) : Except PyError Bool :=
  if cfg.doPreConvolve then
    if cfg.useGaussianForPreConvolution then .ok true
    else .error (.nameError "psf")
  else .ok false

/-- Lines 271-296: selection of kernel-fitting sources.  When the `src`
dataset exists (line 285) it is fetched and used directly, with the
`selectDetection` and `selectMeasurement` subtasks never invoked.  When it
does not exist, line 277 calls `selectDetection.makeSourceCatalog` with
keyword argument `doSmooth = not self.doPreConvolve` (line 281);
`ImageDifferenceTask` instances have no attribute `doPreConvolve` (the
config flag lives at `self.config.doPreConvolve`, cf. line 335), so the
argument evaluation raises `AttributeError` before the detection subtask
runs. -/
def selectSourcesStep (cfg : ImageDifferenceConfig) (srcExists : Bool) :
    Except PyError SelectOutcome :=
  if cfg.doSelectSources then
    if srcExists then .ok .usedSrcProduct
    else .error (.attributeError "doPreConvolve")
  else .ok .skipped

/-- Lines 358-388: cross-match of diaSources.  When the `src` dataset
exists, `matchRadAsec` is bound (line 361) and the source-match dictionary
is built from `afwTable.matchXy`; the returned flag records that diaSources
were matched against `src`.  When it does not exist, the absence is logged
and `srcMatchDict = {}` (lines 367-369), but line 372 then constructs the
reference-catalog astrometer with `catalogMatchDist=matchRadAsec`, and
`matchRadAsec` was only ever assigned inside the other branch, so CPython
raises `NameError` (unbound local) before the reference-catalog match. -/
def matchSourcesStep (srcExists : Bool) : Except PyError Bool :=
  if srcExists then .ok true
  else .error (.nameError "matchRadAsec")

/-- The slice of the sensor-level butler reference consulted by
`ImageDifferenceTask.run`: per-exposure dataset existence flags plus the
per-patch tile store and the patch list that `getTemplate` iterates
over. -/
structure SensorRef where
  sciencePsfExists : Bool
  srcExists : Bool
  subtractedExpExists : Bool
  store : TileStore
  patchList : List PatchId

/-- Summary of a completed `run` invocation. -/
structure RunResult where
  preConvolved : Bool
  selection : SelectOutcome
  detectionRan : Bool
  matchedAgainstSrc : Bool
deriving DecidableEq, Repr

/-- `ImageDifferenceTask.run` (lines 175-403) as control flow over the
modelled state.  Line 232 raises when the science PSF dataset is empty.
Under `doSubtract` (line 244): `getTemplate` (line 245), then the
pre-convolution block, then source selection, then the subtraction engine
(line 301, external, modelled as succeeding).  Under `doDetection`
(line 313): when subtraction did not run the persisted difference
exposure is fetched (line 315, an error when absent); the detection-mask
clearing of lines 326-328 is modelled separately by `eraseDetectionMask`;
detection, merging and measurement are external subtask calls; then the
cross-match block (line 358) when `doMatchSources`.  Line 392 reads
`sources.setWriteHeavyFootprints(True)` but the local holding the catalog
is named `diaSources`, and no local `sources` is bound in `run`, so the
`doWriteHeavyFootprintsInSources` write path raises `NameError`. -/
def runModel (cfg : ImageDifferenceConfig) (ref : SensorRef) :
    Except PyError RunResult :=
  if ref.sciencePsfExists = false then .error (.taskError "No psf found")
  else
    let subtractBlock : Except PyError (Bool × SelectOutcome) :=
      if cfg.doSubtract then
        match getTemplate ref.store ref.patchList with
        | .error e => .error e
        | .ok _ =>
          match preConvolveStep cfg with
          | .error e => .error e
          | .ok conv =>
            match selectSourcesStep cfg ref.srcExists with
            | .error e => .error e
            | .ok sel => .ok (conv, sel)
      else .ok (false, .skipped)
    match subtractBlock with
    | .error e => .error e
    | .ok (conv, sel) =>
      if cfg.doDetection then
        if cfg.doSubtract = false ∧ ref.subtractedExpExists = false then
          .error (.runtimeError "no persisted difference exposure")
        else
          match (if cfg.doMatchSources then matchSourcesStep ref.srcExists
                 else .ok false) with
          | .error e => .error e
          | .ok m =>
            if cfg.doWriteSources ∧ cfg.doWriteHeavyFootprintsInSources then
              .error (.nameError "sources")
            else .ok ⟨conv, sel, true, m⟩
      else .ok ⟨conv, sel, false, false⟩

/-- Line 328 applied to one mask pixel: `mask &= ~(DETECTED | DETECTED_NEGATIVE)`.
An `afwImage.MaskU` pixel is a 16-bit unsigned integer, so complement and
conjunction act on 16 bits: the complement of `b` is `(2^16 - 1) ^^^ b`.
`det` and `detNeg` are the bit positions returned by
`mask.getPlaneBitMask` for the two planes. -/
def clearDetectionBits (det detNeg : Nat) (m : Nat) : Nat :=
  m &&& ((2 ^ 16 - 1) ^^^ (2 ^ det ||| 2 ^ detNeg))

/-- Lines 326-328: erase the existing detection mask planes of every pixel
of the mask of the difference exposure, modelled as a list of 16-bit pixels. -/
def eraseDetectionMask (det detNeg : Nat) (mask : List Nat) : List Nat :=
  mask.map (clearDetectionBits det detNeg)

/-- Module constant of line 40: `FwhmPerSigma = 2 * math.sqrt(2 * math.log(2))`. -/
noncomputable def FwhmPerSigma : ℝ := 2 * Real.sqrt (2 * Real.log 2)

/-- Lines 266-268: the width of the science PSF handed downstream.  With
pre-convolution, `scienceSigmaPost = scienceSigmaOrig * math.sqrt(2)`
(line 266); otherwise `scienceSigmaPost = scienceSigmaOrig` (line 268). -/
noncomputable def scienceSigmaPost (cfg : ImageDifferenceConfig)
    (scienceSigmaOrig : ℝ) : ℝ :=
  if cfg.doPreConvolve then scienceSigmaOrig * Real.sqrt 2
  else scienceSigmaOrig

/-- Line 304: the `scienceFwhmPix = scienceSigmaPost * FwhmPerSigma`
argument passed to `subtract.subtractExposures`. -/
noncomputable def scienceFwhmPix (cfg : ImageDifferenceConfig)
    (scienceSigmaOrig : ℝ) : ℝ :=
  scienceSigmaPost cfg scienceSigmaOrig * FwhmPerSigma

namespace CalibrateTask

/-- Truthy output of a successful `photocal.run` (a `pipeBase.Struct` with
a `calib` carrying the flux at magnitude zero, plus the zero-point summary
statistics written into the exposure metadata). -/
structure PhotocalOutput where
  calibFluxMag0 : Int
  zp : Int
  sigma : Int
  ngood : Nat
deriving DecidableEq, Repr

/-- Observable outcome of the photometric-calibration tail of
`CalibrateTask.run`: the `photocal` field of the returned `Struct`, the
flux zero-point of the exposure after the block, and whether the
zero-point-failure warning was logged. -/
structure CalibOutcome where
  photocal : Option PhotocalOutput
  fluxMag0 : Int
  warnedPhotocalFailure : Bool
deriving DecidableEq, Repr

/-- Lines 250-274 of `calibrate.py` (`CalibrateTask.run`): under
`doPhotoCal`, line 251 asserts that astrometric matches exist (they are
`None` unless `doAstrometry` ran, lines 243-248); `photocal.run` is called
inside `try` (lines 252-253) and any exception is caught, logged as a
warning, and replaced by `photocalRet = None` (lines 254-256), after which
the `if photocalRet:` block that would install the new flux zero-point on
the exposure (line 260) is skipped entirely.  Without `doPhotoCal`,
`photocalRet = None` (line 274). -/
def runPhotocalSection (doAstrometry doPhotoCal : Bool)
    (photocalOutcome : Except String PhotocalOutput) (fluxMag0 : Int) :
    Except PipeTasks.PyError CalibOutcome :=
  if doPhotoCal then
    if doAstrometry = false then
      .error (.assertionError "matches is not None")
    else
      match photocalOutcome with
      | .error _ => .ok ⟨none, fluxMag0, true⟩
      | .ok pr => .ok ⟨some pr, pr.calibFluxMag0, false⟩
  else .ok ⟨none, fluxMag0, false⟩

/-- Config for `CalibrateTask` (class `CalibrateConfig`, lines 58-129 of
`calibrate.py`), restricted to the flags the modelled control flow reads;
`measurementDoApplyApCorr` stands for `measurement.doApplyApCorr`. -/
structure CalibrateConfig where
  doBackground : Bool := true
  doPsf : Bool := true
  doComputeApCorr : Bool := true
  doAstrometry : Bool := true
  doPhotoCal : Bool := true
  measurementDoApplyApCorr : Bool := true
deriving DecidableEq, Repr

/-- `CalibrateTask.run` (lines 156-287) as control flow over the modelled
state.  Repair, background estimation, detection, measurement, PSF
determination and astrometry are external subtask calls, modelled as
succeeding; the assertions of line 234 (`assert(self.config.doPsf)`) and
line 240 (`assert(apCorr is not None)`) are kept, and the photometric
tail is `runPhotocalSection`.  The `photocal` and flux zero-point fields
of the returned `pipeBase.Struct` are the modelled outcome. -/
def run (cfg : CalibrateConfig)
    (photocalOutcome : Except String PhotocalOutput) (fluxMag0 : Int) :
    Except PipeTasks.PyError CalibOutcome :=
  if cfg.doComputeApCorr ∧ ¬ cfg.doPsf then
    .error (.assertionError "self.config.doPsf")
  else if cfg.measurementDoApplyApCorr ∧ ¬ cfg.doComputeApCorr then
    .error (.assertionError "apCorr is not None")
  else runPhotocalSection cfg.doAstrometry cfg.doPhotoCal photocalOutcome fluxMag0

end CalibrateTask

/-- Fixture: a tile store in which every per-patch dataset exists. -/
def storeAll : TileStore :=
  ⟨fun _ => true, fun _ => true, fun _ => 7, fun _ => true, fun _ => 3⟩

/-- Fixture: pixel data exists for every patch but no `Coadd_psf` dataset
exists anywhere. -/
def storeNoPsf : TileStore :=
  ⟨fun _ => true, fun _ => false, fun _ => 7, fun _ => true, fun _ => 3⟩

/-- Fixture: pixel data and PSF models exist for every patch, but no
`Coadd_apCorr` dataset exists anywhere. -/
def storeNoApCorr : TileStore :=
  ⟨fun _ => true, fun _ => true, fun _ => 7, fun _ => false, fun _ => 3⟩

/-- Fixture: pixel data exists only for patches whose first index is 0;
PSF and aperture-correction datasets exist everywhere. -/
def storePartial : TileStore :=
  ⟨fun p => p.px == 0, fun _ => true, fun _ => 7, fun _ => true, fun _ => 3⟩

/-- Fixture: a two-patch list whose second patch is missing from
`storePartial`. -/
def patchListTwo : List PatchId := [⟨0, 0⟩, ⟨1, 0⟩]

/-- Fixture: `ImageDifferenceConfig` with every field at its declared
default. -/
def defaultConfig : ImageDifferenceConfig := {}

/-- Fixture: the default config with `doSelectSources` disabled. -/
def configNoSelect : ImageDifferenceConfig := { doSelectSources := false }

/-- Fixture: the default config asking for pre-convolution with the
fitted PSF instead of the Gaussian approximation. -/
def configFittedPsf : ImageDifferenceConfig :=
  { useGaussianForPreConvolution := false }

/-- Fixture: a sensor reference whose repository holds every dataset. -/
def refAll : SensorRef := ⟨true, true, true, storeAll, [⟨0, 0⟩]⟩

/-- Fixture: a sensor reference identical to `refAll` except that the
prior `src` catalog is absent. -/
def refNoSrc : SensorRef := ⟨true, false, true, storeAll, [⟨0, 0⟩]⟩


lemma fetchApCorr_nPatchesFound (store : TileStore) (s : TemplateLoopState)
    (p : PatchId) : (fetchApCorr store s p).nPatchesFound = s.nPatchesFound := by
  unfold fetchApCorr
  split <;> [skip; rfl]
  split <;> rfl

lemma processPatch_nPatchesFound (store : TileStore) (s : TemplateLoopState)
    (p : PatchId) :
    (processPatch store s p).nPatchesFound =
      s.nPatchesFound + (if store.coaddExists p then 1 else 0) := by
  unfold processPatch
  by_cases h : store.coaddExists p <;> simp [h]
  split
  · split
    · rw [fetchApCorr_nPatchesFound]
    · rfl
  · rw [fetchApCorr_nPatchesFound]

lemma foldl_processPatch_count (store : TileStore) (l : List PatchId) :
    ∀ s : TemplateLoopState,
      (l.foldl (processPatch store) s).nPatchesFound =
        s.nPatchesFound + (l.filter (fun p => store.coaddExists p)).length := by
  induction l with
  | nil => intro s; simp
  | cons p l ih =>
      intro s
      by_cases h : store.coaddExists p <;>
        simp [List.foldl_cons, ih, processPatch_nPatchesFound, h, List.filter_cons] <;>
        omega

lemma templateLoop_count (store : TileStore) (patchList : List PatchId) :
    (templateLoop store patchList).nPatchesFound =
      (patchList.filter (fun p => store.coaddExists p)).length := by
  unfold templateLoop
  rw [foldl_processPatch_count]
  simp

lemma length_filter_add_length_filter_not (l : List PatchId)
    (q : PatchId → Bool) :
    (l.filter q).length + (l.filter (fun p => !(q p))).length = l.length := by
  induction l with
  | nil => simp
  | cons p l ih =>
      by_cases h : q p <;> simp [List.filter_cons, h] <;> omega

lemma fetchApCorr_apCorr_none (store : TileStore) (s : TemplateLoopState)
    (p : PatchId) (hstore : ∀ q, store.apCorrExists q = false) :
    (fetchApCorr store s p).coaddApCorr = s.coaddApCorr := by
  unfold fetchApCorr
  simp [hstore p]

lemma processPatch_apCorr_none (store : TileStore) (s : TemplateLoopState)
    (p : PatchId) (hstore : ∀ q, store.apCorrExists q = false) :
    (processPatch store s p).coaddApCorr = s.coaddApCorr := by
  unfold processPatch
  by_cases h : store.coaddExists p <;> simp [h]
  split
  · split
    · rw [fetchApCorr_apCorr_none store _ _ hstore]
    · rfl
  · rw [fetchApCorr_apCorr_none store _ _ hstore]

lemma foldl_processPatch_apCorr_none (store : TileStore) (l : List PatchId)
    (hstore : ∀ q, store.apCorrExists q = false) :
    ∀ s : TemplateLoopState,
      (l.foldl (processPatch store) s).coaddApCorr = s.coaddApCorr := by
  induction l with
  | nil => intro s; rfl
  | cons p l ih =>
      intro s
      rw [List.foldl_cons, ih, processPatch_apCorr_none store _ _ hstore]

lemma getTemplate_ok_inv (store : TileStore) (patchList : List PatchId)
    (r : TemplateResult) (hok : getTemplate store patchList = .ok r) :
    r.nPatchesFound = (templateLoop store patchList).nPatchesFound ∧
    r.coaddApCorr = (templateLoop store patchList).coaddApCorr ∧
    (templateLoop store patchList).coaddPsf = some r.coaddPsf := by
  by_cases hE : patchList.isEmpty
  · simp [getTemplate, hE] at hok
  · by_cases h0 : (templateLoop store patchList).nPatchesFound = 0
    · simp [getTemplate, hE, h0] at hok
    · rcases hpsf : (templateLoop store patchList).coaddPsf with _ | v
      · simp [getTemplate, hE, h0, hpsf] at hok
      · simp [getTemplate, hE, h0, hpsf] at hok
        rcases hok with ⟨hv, rfl⟩
        exact ⟨rfl, rfl, rfl⟩

/-- Claim C4: configuration validation rejects, before any pipeline stage
executes, exactly these invalid combinations: `doMeasurement` without
`doDetection`, `doMerge` without `doDetection`, and
`doWriteHeavyFootprintsInSources` without `doWriteSources`; each raises a
configuration error. -/
theorem validate_rejects_exactly_three_combinations
    (cfg : ImageDifferenceConfig) :
    (∃ msg, cfg.validate = Except.error msg) ↔
      ((cfg.doMeasurement = true ∧ cfg.doDetection = false) ∨
       (cfg.doMerge = true ∧ cfg.doDetection = false) ∨
       (cfg.doWriteHeavyFootprintsInSources = true ∧
        cfg.doWriteSources = false)) := by
  rcases cfg with ⟨a1, a2, a3, a4, a5, det, mrg, a8, mea, a10, a11, wsrc, hfp, a14, a15⟩
  cases det <;> cases mrg <;> cases mea <;> cases wsrc <;> cases hfp <;>
    simp [ImageDifferenceConfig.validate]

/-- Claim C2: `getTemplate` returns a result only when at least one patch
was read and a PSF model was found among the tiles; with zero patches read
it raises the fatal no-patches error, and with patches read but no PSF
model ever found it raises the fatal no-PSF error. -/
theorem getTemplate_accepts_only_with_patch_and_psf (store : TileStore)
    (patchList : List PatchId) (hne : patchList ≠ []) :
    (∀ r, getTemplate store patchList = .ok r →
        (templateLoop store patchList).nPatchesFound ≠ 0 ∧
        (templateLoop store patchList).coaddPsf ≠ none) ∧
    ((templateLoop store patchList).nPatchesFound = 0 →
        getTemplate store patchList =
          .error (.runtimeError "No patches found!")) ∧
    ((templateLoop store patchList).nPatchesFound ≠ 0 →
        (templateLoop store patchList).coaddPsf = none →
        getTemplate store patchList =
          .error (.runtimeError "No coadd Psf found!")) := by
  have hE : patchList.isEmpty = false := by
    simpa [List.isEmpty_iff] using hne
  refine ⟨?_, ?_, ?_⟩
  · intro r hr
    by_cases h0 : (templateLoop store patchList).nPatchesFound = 0
    · simp [getTemplate, hE, h0] at hr
    · rcases hpsf : (templateLoop store patchList).coaddPsf with _ | v
      · simp [getTemplate, hE, h0, hpsf] at hr
      · exact ⟨h0, by simp [hpsf]⟩
  · intro h0
    simp [getTemplate, hE, h0]
  · intro h0 hpsf
    simp [getTemplate, hE, h0, hpsf]

/-- Witness for C2: a one-patch store whose pixel data exists but whose
PSF dataset is absent everywhere makes `getTemplate` raise the fatal
no-PSF error even though a patch was read. -/
theorem getTemplate_accepts_only_with_patch_and_psf_witness :
    getTemplate storeNoPsf [⟨0, 0⟩] =
      .error (.runtimeError "No coadd Psf found!") :=
  (getTemplate_accepts_only_with_patch_and_psf storeNoPsf [⟨0, 0⟩]
      (by decide)).2.2 (by decide) (by rfl)

/-- Claim C6: over `N` overlapping patches of which `M` lack stored pixel
data, a successful template assembly reports `nPatchesFound = N - M`:
each existing patch increments the count exactly once and each absent
patch is skipped. -/
theorem templateAssembler_patch_count (store : TileStore)
    (patchList : List PatchId) (r : TemplateResult)
    (hok : getTemplate store patchList = .ok r) :
    r.nPatchesFound =
      (patchList.filter (fun p => store.coaddExists p)).length ∧
    r.nPatchesFound =
      patchList.length -
        (patchList.filter (fun p => !(store.coaddExists p))).length := by
  have hsum := length_filter_add_length_filter_not patchList
    (fun p => store.coaddExists p)
  have hcount := templateLoop_count store patchList
  have hinv := (getTemplate_ok_inv store patchList r hok).1
  rw [hinv, hcount]
  exact ⟨rfl, by omega⟩

/-- Witness for C6: two overlapping patches of which one is missing give
a found-count of 2 - 1 = 1. -/
theorem templateAssembler_patch_count_witness :
    (⟨1, 7, some 3⟩ : TemplateResult).nPatchesFound =
      patchListTwo.length -
        (patchListTwo.filter (fun p => !(storePartial.coaddExists p))).length :=
  (templateAssembler_patch_count storePartial patchListTwo ⟨1, 7, some 3⟩
    (by rfl)).2

/-- Claim C9: when no `Coadd_apCorr` dataset exists for any tile,
`getTemplate` still returns successfully (given a patch and a PSF model)
and propagates `None` as the aperture-correction model. -/
theorem getTemplate_apCorr_absent_not_fatal (store : TileStore)
    (patchList : List PatchId)
    (hstore : ∀ q, store.apCorrExists q = false)
    (hn : (templateLoop store patchList).nPatchesFound ≠ 0)
    (v : Nat) (hpsf : (templateLoop store patchList).coaddPsf = some v) :
    getTemplate store patchList =
      .ok ⟨(templateLoop store patchList).nPatchesFound, v, none⟩ := by
  have hE : patchList.isEmpty = false := by
    rcases patchList with _ | ⟨p, l⟩
    · exact absurd rfl hn
    · rfl
  have hap : (templateLoop store patchList).coaddApCorr = none := by
    unfold templateLoop
    rw [foldl_processPatch_apCorr_none store patchList hstore]
  simp [getTemplate, hE, hn, hpsf, hap]

/-- Witness for C9: one patch with pixels and a PSF but no aperture
correction anywhere assembles successfully with an absent apCorr model. -/
theorem getTemplate_apCorr_absent_not_fatal_witness :
    getTemplate storeNoApCorr [⟨0, 0⟩] = .ok ⟨1, 7, none⟩ :=
  getTemplate_apCorr_absent_not_fatal storeNoApCorr [⟨0, 0⟩]
    (fun _ => rfl) (by decide) 7 (by rfl)


/-- Claim C3: with pre-convolution under the Gaussian PSF approximation,
the effective PSF width used downstream equals the original science sigma
multiplied by exactly the square root of 2 (so its square doubles), and
the FWHM handed to the subtraction engine is that width times
`FwhmPerSigma`. -/
theorem preConvolve_sigma_scaling (cfg : ImageDifferenceConfig) (sigma : ℝ)
    (hpre : cfg.doPreConvolve = true)
    (hgauss : cfg.useGaussianForPreConvolution = true) :
    scienceSigmaPost cfg sigma = sigma * Real.sqrt 2 ∧
    (scienceSigmaPost cfg sigma) ^ 2 = 2 * sigma ^ 2 ∧
    scienceFwhmPix cfg sigma = sigma * Real.sqrt 2 * FwhmPerSigma := by
  have h1 : scienceSigmaPost cfg sigma = sigma * Real.sqrt 2 := by
    simp [scienceSigmaPost, hpre]
  refine ⟨h1, ?_, ?_⟩
  · rw [h1, mul_pow, Real.sq_sqrt (by norm_num : (0 : ℝ) ≤ 2)]
    ring
  · rw [scienceFwhmPix, h1]

/-- Witness for C3: the scaling law evaluated at the default config and a
unit original sigma. -/
theorem preConvolve_sigma_scaling_witness :
    scienceSigmaPost defaultConfig 1 = 1 * Real.sqrt 2 ∧
    (scienceSigmaPost defaultConfig 1) ^ 2 = 2 * 1 ^ 2 ∧
    scienceFwhmPix defaultConfig 1 = 1 * Real.sqrt 2 * FwhmPerSigma :=
  preConvolve_sigma_scaling defaultConfig 1 rfl rfl

/-- Claim C7: clearing the detection planes before transient detection
turns the `DETECTED` and `DETECTED_NEGATIVE` bits of every pixel off and
leaves every other bitplane of every pixel unchanged. -/
theorem eraseDetectionMask_clears_only_detection_planes
    (det detNeg : Nat) (hdet : det < 16) (hdetNeg : detNeg < 16)
    (mask : List Nat) (hpix : ∀ m ∈ mask, m < 2 ^ 16)
    (i : Nat) (hi : i < mask.length) (b : Nat) :
    ((eraseDetectionMask det detNeg mask).getD i 0).testBit b =
      if b = det ∨ b = detNeg then false
      else (mask.getD i 0).testBit b := by
  have hmap : (eraseDetectionMask det detNeg mask).getD i 0 =
      clearDetectionBits det detNeg (mask.getD i 0) := by
    unfold eraseDetectionMask
    rw [List.getD_eq_getElem _ _ (by simpa [eraseDetectionMask] using hi),
        List.getD_eq_getElem _ _ hi]
    simp
  have hm : mask.getD i 0 < 2 ^ 16 := by
    rw [List.getD_eq_getElem _ _ hi]
    exact hpix _ (List.getElem_mem hi)
  rw [hmap]
  unfold clearDetectionBits
  rw [Nat.testBit_and, Nat.testBit_xor, Nat.testBit_two_pow_sub_one,
      Nat.testBit_or, Nat.testBit_two_pow, Nat.testBit_two_pow]
  by_cases hb : b = det ∨ b = detNeg
  · rw [if_pos hb]
    rcases hb with rfl | rfl <;>
      simp [hdet, hdetNeg]
  · rw [if_neg hb]
    push_neg at hb
    have d1 : decide (det = b) = false := decide_eq_false fun h => hb.1 h.symm
    have d2 : decide (detNeg = b) = false := decide_eq_false fun h => hb.2 h.symm
    by_cases hlt : b < 16
    · simp [d1, d2, hlt]
    · have hmb : (mask.getD i 0).testBit b = false :=
        Nat.testBit_eq_false_of_lt
          (lt_of_lt_of_le hm (Nat.pow_le_pow_right (by norm_num) (by omega)))
      simp [d1, d2, hlt]
      simpa using hmb

/-- Witness for C7: on a single all-ones 16-bit pixel with `DETECTED` at
bit 5 and `DETECTED_NEGATIVE` at bit 6, bit 5 is cleared and bit 3 is
preserved. -/
theorem eraseDetectionMask_clears_only_detection_planes_witness :
    ((eraseDetectionMask 5 6 [65535]).getD 0 0).testBit 5 = false ∧
    ((eraseDetectionMask 5 6 [65535]).getD 0 0).testBit 3 =
      (([65535] : List Nat).getD 0 0).testBit 3 := by
  have h5 := eraseDetectionMask_clears_only_detection_planes 5 6
    (by decide) (by decide) [65535] (by decide) 0 (by decide) 5
  have h3 := eraseDetectionMask_clears_only_detection_planes 5 6
    (by decide) (by decide) [65535] (by decide) 0 (by decide) 3
  refine ⟨?_, ?_⟩
  · rw [h5]
    simp
  · rw [h3]
    simp

/-- Claim C8: a run configured with `doSubtract` and `doPreConvolve`
enabled and `useGaussianForPreConvolution` disabled raises an unhandled
`NameError` on the unbound local `psf` before the convolution is applied,
once it reaches the pre-convolution block (the science PSF is present and
template assembly succeeded). -/
theorem fittedPsf_preConvolution_raises_nameError
    (cfg : ImageDifferenceConfig) (ref : SensorRef)
    (hsub : cfg.doSubtract = true) (hpre : cfg.doPreConvolve = true)
    (hgauss : cfg.useGaussianForPreConvolution = false)
    (hpsf : ref.sciencePsfExists = true)
    (t : TemplateResult) (ht : getTemplate ref.store ref.patchList = .ok t) :
    runModel cfg ref = .error (.nameError "psf") := by
  unfold runModel preConvolveStep
  simp [hpsf, hsub, hpre, hgauss, ht]

/-- Witness for C8: the default config with the Gaussian approximation
switched off, over a repository holding every dataset. -/
theorem fittedPsf_preConvolution_raises_nameError_witness :
    runModel configFittedPsf refAll = .error (.nameError "psf") :=
  fittedPsf_preConvolution_raises_nameError configFittedPsf refAll
    rfl rfl rfl rfl ⟨1, 7, some 3⟩ (by rfl)

/-- Claim C1 (counter-evaluation): with cross-matching enabled and the
prior `src` catalog absent (selection disabled so that the run reaches the
cross-match stage), the run does not complete gracefully: line 372 reads
the local `matchRadAsec`, which was only assigned in the
`datasetExists("src")` branch (line 361), so the cross-match stage dies
with `NameError` instead of proceeding to the reference-catalog match. -/
theorem run_srcAbsent_crossMatch_nameError :
    runModel configNoSelect refNoSrc = .error (.nameError "matchRadAsec") := by
  rfl

/-- Claim C5 (counter-evaluation): with source selection enabled and the
prior `src` catalog absent, the selection stage does not run detection and
measurement: evaluating the `doSmooth = not self.doPreConvolve` keyword on
line 281 raises `AttributeError` (the flag lives at
`self.config.doPreConvolve`), so the detection-path half of the claim can
never execute. -/
theorem run_srcAbsent_selection_attributeError :
    runModel defaultConfig refNoSrc =
      .error (.attributeError "doPreConvolve") := by
  rfl

/-- Claim C10: any exception inside the photometric zero-point subtask is
caught and logged, the `photocal` field of the result is `None`, the flux
zero-point of the exposure is untouched, and `CalibrateTask.run` returns
normally. -/
theorem photocal_failure_caught_and_degraded
    (cfg : CalibrateTask.CalibrateConfig) (e : String) (z : Int)
    (hphot : cfg.doPhotoCal = true) (hastro : cfg.doAstrometry = true)
    (hap : cfg.doComputeApCorr = true → cfg.doPsf = true)
    (happly : cfg.measurementDoApplyApCorr = true →
      cfg.doComputeApCorr = true) :
    CalibrateTask.run cfg (.error e) z = .ok ⟨none, z, true⟩ := by
  have h1 : ¬ (cfg.doComputeApCorr = true ∧ cfg.doPsf = false) := by
    rintro ⟨hc, hp⟩
    rw [hap hc] at hp
    exact Bool.noConfusion hp
  have h2 : ¬ (cfg.measurementDoApplyApCorr = true ∧
      cfg.doComputeApCorr = false) := by
    rintro ⟨hc, hp⟩
    rw [happly hc] at hp
    exact Bool.noConfusion hp
  unfold CalibrateTask.run CalibrateTask.runPhotocalSection
  simp [h1, h2, hphot, hastro]

/-- Witness for C10: the default calibration config with a failing
photometric subtask and flux zero-point 42. -/
theorem photocal_failure_caught_and_degraded_witness :
    CalibrateTask.run {} (.error "No matches") 42 = .ok ⟨none, 42, true⟩ :=
  photocal_failure_caught_and_degraded {} "No matches" 42 rfl rfl
    (fun _ => rfl) (fun _ => rfl)


end PipeTasks
